import Mathlib

/-!
Shallow embedding of the TKE cluster lifecycle controller
(`pkg/platform/controller/cluster`, file `src/unnamed/part_000`).

The controller reconciles `Cluster` objects through a phase state machine
and runs a periodic health check per cluster.  External collaborators
(the typed REST client, the informer lister, cluster providers) are
modelled as environment records that supply the outcome of each call;
the embedded functions mirror the Go control flow over those outcomes
and additionally record the API operations they issue and the log lines
they emit, so that frame conditions ("no API calls", "only logged") are
statable.
-/

namespace TKE

/-- Phase of a cluster (`platformv1.ClusterPhase`, a string type in Go;
the controller only distinguishes the four named constants). -/
inductive ClusterPhase where
  | Initializing
  | Running
  | Failed
  | Terminating
  | unknown (s : String)
deriving DecidableEq, Repr

/-- `corev1.ConditionStatus`. -/
inductive ConditionStatus where
  | True
  | False
  | Unknown
deriving DecidableEq, Repr

/-- `platformv1.ClusterCondition` (the fields the controller touches). -/
structure ClusterCondition where
  type : String
  status : ConditionStatus
  reason : String := ""
  message : String := ""
deriving DecidableEq, Repr

/-- `corev1.LocalObjectReference`. -/
structure LocalObjectReference where
  name : String
deriving DecidableEq, Repr

/-- `platformv1.ClusterSpec` (the fields the controller reads or writes). -/
structure ClusterSpec where
  type : String
  tenantID : String
  clusterCredentialRef : Option LocalObjectReference
deriving DecidableEq, Repr

/-- `platformv1.ClusterStatus` (the fields the controller reads or writes). -/
structure ClusterStatus where
  phase : ClusterPhase
  version : String := ""
  conditions : List ClusterCondition := []
deriving DecidableEq, Repr

/-- `platformv1.Cluster`: name plus spec and status. -/
structure Cluster where
  name : String
  spec : ClusterSpec
  status : ClusterStatus
deriving DecidableEq, Repr

/-- `platformv1.ClusterCredential` (the fields the controller touches). -/
structure ClusterCredential where
  name : String
  tenantID : String := ""
  clusterName : String := ""
deriving DecidableEq, Repr

/-- Go `error` values as the controller distinguishes them:
`apierrors` status errors `NotFound` / `AlreadyExists`, plain errors
created with `errors.New`, and errors wrapped with `fmt.Errorf("...: %w")`. -/
inductive Error where
  | notFound
  | alreadyExists
  | msg (s : String)
  | wrap (pfx : String) (e : Error)
deriving DecidableEq, Repr

/-- `apierrors.IsNotFound`, which unwraps wrapped errors. -/
def isNotFound : Error → Bool
  | .notFound => true
  | .wrap _ e => isNotFound e
  | _ => false

/-- `apierrors.IsAlreadyExists`, which unwraps wrapped errors. -/
def isAlreadyExists : Error → Bool
  | .alreadyExists => true
  | .wrap _ e => isAlreadyExists e
  | _ => false

/-- Outcome of a Go function returning `error`: `ok` for `nil`. -/
abbrev GoResult := Except Error Unit

/-- Patch payload type (`k8s.io/apimachinery/pkg/types.PatchType`);
only the strategic merge type is used by this controller. -/
inductive PatchType where
  | strategicMerge
  | jsonMerge
deriving DecidableEq, Repr

/-- API operations the controller issues against the platform client.
The strategic-merge patch payload is represented by the pair of
clusters it was computed from (`GetPatchBytes(oldCluster, cluster)`). -/
inductive APIOp where
  | listCredentials (fieldSelector : String)
  | createCredential (c : ClusterCredential)
  | getCredential (name : String)
  | updateCredential (c : ClusterCredential)
  | updateCluster (c : Cluster)
  | patchCluster (name : String) (t : PatchType) (old new : Cluster)
deriving DecidableEq, Repr

/-- Log lines the embedded functions emit, as far as the claims need them. -/
inductive LogEvent where
  | clusterDeleted
  | stopHealthCheckDeleted
  | checkHealthError (e : Error)
deriving DecidableEq, Repr

/-! ## Controller shell: event filter and queue discipline -/

/-- `needsUpdate(old, new)`: enqueue iff `Spec` or `Status` differs under
`reflect.DeepEqual` (structural equality in the model). -/
def needsUpdate (old new : Cluster) : Bool :=
  if ¬ (old.spec = new.spec) then true
  else if ¬ (old.status = new.status) then true
  else false

/-- What `processNextWorkItem` does with the key after `syncCluster`. -/
inductive QueueAction where
  | forget
  | addRateLimited
deriving DecidableEq, Repr

/-- The queue discipline of `processNextWorkItem`: `Forget` on nil error,
`AddRateLimited` on non-nil error. -/
def processNextWorkItem (syncErr : GoResult) : QueueAction :=
  match syncErr with
  | .ok _ => .forget
  | .error _ => .addRateLimited

/-! ## syncCluster -/

/-- Character-level splitter (structural counterpart of Go's
`strings.Split` on a single-character separator). -/
def splitOnChar (sep : Char) : List Char → List (List Char)
  | [] => [[]]
  | c :: rest =>
    if c = sep then
      [] :: splitOnChar sep rest
    else
      match splitOnChar sep rest with
      | [] => [[c]]
      | g :: gs => (c :: g) :: gs

/-- `cache.SplitMetaNamespaceKey`: `"name"` or `"namespace/name"`,
anything else is an error. -/
def splitMetaNamespaceKey (key : String) : Except Error (String × String) :=
  match (splitOnChar '/' key.toList).map (fun cs => String.mk cs) with
  | [name] => .ok ("", name)
  | [ns, name] => .ok (ns, name)
  | _ => .error (.msg ("unexpected key format: " ++ key))

/-- Environment for one `syncCluster` call: the lister's answer for the
name, and the outcome of `reconcile` (embedded separately) when the
lookup succeeds. -/
structure SyncEnv where
  listerResult : Except Error Cluster
  reconcileResult : GoResult

/-- `syncCluster(key)`: split the key; look the cluster up via the
lister; if `IsNotFound`, log "cluster has been deleted"; on any lookup
error return it; otherwise reconcile. -/
def syncCluster (env : SyncEnv) (key : String) : GoResult × List LogEvent :=
  match splitMetaNamespaceKey key with
  | .error e => (.error e, [])
  | .ok _ =>
    match env.listerResult with
    | .error e =>
      ((.error e), if isNotFound e then [.clusterDeleted] else [])
    | .ok _ => (env.reconcileResult, [])

/-! ## Credential lifecycle -/

/-- Environment for `ensureSyncOldClusterCredential`: the outcome of the
credential `List` call and of the cluster `Update` call. -/
structure SyncOldEnv where
  listResult : Except Error (List ClusterCredential)
  updateClusterErr : Option Error

/-- `ensureSyncOldClusterCredential(cluster)`: legacy sync for clusters
without `Spec.ClusterCredentialRef`.  Returns the Go error, the
(possibly mutated) in-memory cluster, and the API operations issued. -/
def ensureSyncOldClusterCredential (env : SyncOldEnv) (cluster : Cluster) :
    GoResult × Cluster × List APIOp :=
  if cluster.spec.clusterCredentialRef ≠ none then
    (.ok (), cluster, [])
  else
    let fieldSelector := "clusterName=" ++ cluster.name
    match env.listResult with
    | .error e => (.error e, cluster, [.listCredentials fieldSelector])
    | .ok items =>
      match items with
      | [] =>
        if cluster.spec.type = "Imported" then
          (.error (.msg "waiting create ClusterCredential"), cluster,
            [.listCredentials fieldSelector])
        else
          (.ok (), cluster, [.listCredentials fieldSelector])
      | credential :: _ =>
        let cluster' := { cluster with
          spec := { cluster.spec with
            clusterCredentialRef := some ⟨credential.name⟩ } }
        let ops := [APIOp.listCredentials fieldSelector, .updateCluster cluster']
        match env.updateClusterErr with
        | some e => (.error e, cluster', ops)
        | none => (.ok (), cluster', ops)

/-- Environment for `ensureClusterCredential`: the object and error the
credential `Create` call returns (the generated client returns a
non-nil object even alongside an error), the `Get` outcome on the
ref-already-set branch, and the two `Update` outcomes. -/
structure EnsureCredEnv where
  createResult : ClusterCredential × Option Error
  updateClusterErr : Option Error
  getResult : Except Error ClusterCredential
  updateCredentialErr : Option Error

/-- Tail of the nil-ref branch of `ensureClusterCredential` after the
`Create` call was tolerated: set `Spec.ClusterCredentialRef` to the
returned credential's name and `Update` the cluster. -/
def ensureCredSetRef (env : EnsureCredEnv) (cluster : Cluster)
    (credential : ClusterCredential) (ops₀ : List APIOp) :
    GoResult × Cluster × List APIOp :=
  let cluster' := { cluster with
    spec := { cluster.spec with
      clusterCredentialRef := some ⟨credential.name⟩ } }
  let ops := ops₀ ++ [APIOp.updateCluster cluster']
  match env.updateClusterErr with
  | some e => (.error e, cluster', ops)
  | none => (.ok (), cluster', ops)

/-- `ensureClusterCredential(cluster)`: when the ref is nil and the type
is not `"Imported"`, create a credential `{TenantID, ClusterName}`
(tolerating `AlreadyExists`), point `Spec.ClusterCredentialRef` at the
returned credential's name and `Update` the cluster; when the ref is
set, `Get` the credential and repair its `ClusterName` if divergent. -/
def ensureClusterCredential (env : EnsureCredEnv) (cluster : Cluster) :
    GoResult × Cluster × List APIOp :=
  match cluster.spec.clusterCredentialRef with
  | none =>
    if cluster.spec.type = "Imported" then
      (.ok (), cluster, [])
    else
      let credentialArg : ClusterCredential :=
        { name := "", tenantID := cluster.spec.tenantID, clusterName := cluster.name }
      let (credential, createErr) := env.createResult
      let ops₀ := [APIOp.createCredential credentialArg]
      match createErr with
      | some e =>
        if ¬ isAlreadyExists e then
          (.error e, cluster, ops₀)
        else
          ensureCredSetRef env cluster credential ops₀
      | none => ensureCredSetRef env cluster credential ops₀
  | some ref =>
    match env.getResult with
    | .error e => (.error e, cluster, [.getCredential ref.name])
    | .ok credential =>
      if credential.clusterName ≠ cluster.name then
        let credential' := { credential with clusterName := cluster.name }
        let ops := [APIOp.getCredential ref.name, .updateCredential credential']
        match env.updateCredentialErr with
        | some e => (.error e, cluster, ops)
        | none => (.ok (), cluster, ops)
      else
        (.ok (), cluster, [.getCredential ref.name])

/-! ## onCreate -/

/-- `typesv1.Cluster` wrapper passed to providers: the cluster (whose
fields are promoted, so `wrapper.Status` is `wrapper.cluster.status`)
and its credential. -/
structure ClusterWrapper where
  cluster : Cluster
  clusterCredential : ClusterCredential
deriving DecidableEq, Repr

/-- Environment for `onCreate`: the provider lookup, the
`ensureClusterCredential` environment, the wrapper produced by
`typesv1.GetCluster`, the provider's `OnCreate` behaviour (it mutates
the wrapper in place and returns an error), and the outcome of the two
`Update` calls on each loop iteration `i`. -/
structure OnCreateEnv where
  getProviderErr : Option Error
  ensureEnv : EnsureCredEnv
  getClusterResult : Except Error ClusterWrapper
  providerOnCreate : ClusterWrapper → ClusterWrapper × Option Error
  updateCredentialErr : Nat → Option Error
  updateClusterErr : Nat → Option Error

deriving instance DecidableEq for Except

/-- Result of the `onCreate` provisioning loop under bounded fuel. -/
inductive LoopResult where
  | returned (r : GoResult) (w : ClusterWrapper)
  | fuelOut (w : ClusterWrapper)
deriving DecidableEq, Repr

/-- The `onCreate` inner loop: while the wrapper's phase is
`Initializing`, call `provider.OnCreate`, then `Update` the credential,
then `Update` the cluster; `err` is reassigned by each of the three
calls, and only the value left by the final `Update` is checked. -/
def onCreateLoop (env : OnCreateEnv) : Nat → Nat → ClusterWrapper → LoopResult
  | 0, _, w => .fuelOut w
  | fuel + 1, i, w =>
    if w.cluster.status.phase = ClusterPhase.Initializing then
      let (w', _errProvider) := env.providerOnCreate w
      let _errCredential := env.updateCredentialErr i
      match env.updateClusterErr i with
      | some e => .returned (.error e) w'
      | none => onCreateLoop env fuel (i + 1) w'
    else
      .returned (.ok ()) w

/-- `onCreate(cluster)`: resolve the provider, ensure the credential,
build the wrapper, then drive the provisioning loop.  `none` means the
loop had not exited within the given fuel. -/
def onCreate (env : OnCreateEnv) (fuel : Nat) (cluster : Cluster) :
    Option GoResult :=
  match env.getProviderErr with
  | some e => some (.error e)
  | none =>
    match (ensureClusterCredential env.ensureEnv cluster).1 with
    | .error e => some (.error (.wrap "ensureClusterCredential error" e))
    | .ok _ =>
      match env.getClusterResult with
      | .error e => some (.error e)
      | .ok w =>
        match onCreateLoop env fuel 0 w with
        | .returned r _ => some r
        | .fuelOut _ => none

/-! ## Health check -/

/-- `conditionTypeHealthCheck`. -/
def conditionTypeHealthCheck : String := "HealthCheck"

/-- `failedHealthCheckReason`. -/
def failedHealthCheckReason : String := "FailedHealthCheck"

/-- Modelled from the spec: `Cluster.SetCondition` is not part of the
provided source; per §4.6 it upserts the condition into
`Status.Conditions`, merging by `Type` and updating `Status`, `Reason`
and `Message` in place. -/
def setCondition (conditions : List ClusterCondition) (c : ClusterCondition) :
    List ClusterCondition :=
  if conditions.any (fun x => x.type == c.type) then
    conditions.map (fun x =>
      if x.type == c.type then
        { x with status := c.status, reason := c.reason, message := c.message }
      else x)
  else
    conditions ++ [c]

/-- Environment for `checkHealth`: the outcome of
`util.BuildExternalClientSet` (error text on failure), of
`Discovery().ServerVersion()` (error text, or the version's `String()`),
of `strategicpatch.GetPatchBytes`, and of the `Patch` call. -/
structure CheckHealthEnv where
  buildClientErr : Option String
  serverVersion : Except String String
  getPatchBytesErr : Option String
  patchErr : Option Error

/-- `checkHealth(cluster)`: snapshot the cluster, probe the external
cluster, set `Status.Phase` / `Status.Version` and the `HealthCheck`
condition accordingly, and persist the difference as a strategic-merge
patch.  Returns the Go error, the mutated in-memory cluster, and the
API operations issued. -/
def checkHealth (env : CheckHealthEnv) (cluster : Cluster) :
    GoResult × Cluster × List APIOp :=
  let oldCluster := cluster
  let cond₀ : ClusterCondition :=
    { type := conditionTypeHealthCheck, status := ConditionStatus.False }
  let (cluster₁, cond₁) :=
    match env.buildClientErr with
    | some e =>
      ({ cluster with status := { cluster.status with phase := .Failed } },
       { cond₀ with reason := failedHealthCheckReason, message := e })
    | none =>
      match env.serverVersion with
      | .error e =>
        ({ cluster with status := { cluster.status with phase := .Failed } },
         { cond₀ with reason := failedHealthCheckReason, message := e })
      | .ok version =>
        ({ cluster with status :=
            { cluster.status with phase := .Running, version := version } },
         { cond₀ with status := ConditionStatus.True })
  let cluster₂ := { cluster₁ with status :=
    { cluster₁.status with
      conditions := setCondition cluster₁.status.conditions cond₁ } }
  match env.getPatchBytesErr with
  | some e => (.error (.wrap "GetPatchBytes error" (.msg e)), cluster₂, [])
  | none =>
    let ops := [APIOp.patchCluster cluster.name PatchType.strategicMerge
      oldCluster cluster₂]
    match env.patchErr with
    | some e => (.error (.wrap "update cluster health status error" e), cluster₂, ops)
    | none => (.ok (), cluster₂, ops)

/-! ## watchHealth -/

/-- Environment for one tick of the `watchHealth` poll function: the
lister's answer for the key and, when `checkHealth` runs, its error. -/
structure WatchHealthEnv where
  listerResult : Except Error Cluster
  checkHealthErr : Option Error

/-- What one tick of the `watchHealth` poll function produced: the
`(done, err)` pair handed back to `wait.PollImmediateInfinite`, the
health cache afterwards, whether `checkHealth` ran, and the log lines. -/
structure WatchTickResult where
  done : Bool
  err : Option Error
  healthCache : List String
  ranCheckHealth : Bool
  logs : List LogEvent
deriving DecidableEq, Repr

/-- One tick of the closure returned by `watchHealth(key)`: on NotFound
remove the key from `healthCache` and stop; on any other lister error
continue silently; when the phase is neither Running nor Failed skip
the tick; otherwise run `checkHealth`, logging (only) its error. -/
def watchHealthTick (env : WatchHealthEnv) (key : String)
    (healthCache : List String) : WatchTickResult :=
  match env.listerResult with
  | .error e =>
    if isNotFound e then
      { done := true, err := none,
        healthCache := healthCache.filter (fun k => k ≠ key),
        ranCheckHealth := false, logs := [.stopHealthCheckDeleted] }
    else
      { done := false, err := none, healthCache := healthCache,
        ranCheckHealth := false, logs := [] }
  | .ok cluster =>
    if ¬ (cluster.status.phase = .Running ∨ cluster.status.phase = .Failed) then
      { done := false, err := none, healthCache := healthCache,
        ranCheckHealth := false, logs := [] }
    else
      let logs := match env.checkHealthErr with
        | some e => [LogEvent.checkHealthError e]
        | none => []
      { done := false, err := none, healthCache := healthCache,
        ranCheckHealth := true, logs := logs }

/-! ## Theorems -/

/-- C8: `needsUpdate(old, new)` is true iff `old.Spec` and `new.Spec`
differ or `old.Status` and `new.Status` differ under deep equality; in
particular `needsUpdate(x, x) = false` for every cluster `x`. -/
theorem needsUpdate_iff_spec_or_status_differ (old new : Cluster) :
    (needsUpdate old new = true ↔
      (old.spec ≠ new.spec ∨ old.status ≠ new.status)) ∧
    (∀ x : Cluster, needsUpdate x x = false) := by
  constructor
  · unfold needsUpdate
    by_cases h₁ : old.spec = new.spec <;> by_cases h₂ : old.status = new.status <;>
      simp [h₁, h₂]
  · intro x
    simp [needsUpdate]

/-- Witness for `needsUpdate_iff_spec_or_status_differ` at a concrete
cluster: a resync event with an identical object is filtered out. -/
theorem needsUpdate_iff_spec_or_status_differ_witness :
    needsUpdate
      { name := "w8",
        spec := { type := "Baremetal", tenantID := "t", clusterCredentialRef := none },
        status := { phase := .Running } }
      { name := "w8",
        spec := { type := "Baremetal", tenantID := "t", clusterCredentialRef := none },
        status := { phase := .Running } } = false :=
  (needsUpdate_iff_spec_or_status_differ
    { name := "w8",
      spec := { type := "Baremetal", tenantID := "t", clusterCredentialRef := none },
      status := { phase := .Running } }
    { name := "w8",
      spec := { type := "Baremetal", tenantID := "t", clusterCredentialRef := none },
      status := { phase := .Running } }).2
    { name := "w8",
      spec := { type := "Baremetal", tenantID := "t", clusterCredentialRef := none },
      status := { phase := .Running } }

/-- A `syncCluster` environment whose lister lookup answers NotFound. -/
def syncEnvNotFound : SyncEnv :=
  { listerResult := .error .notFound, reconcileResult := .ok () }

/-- C1 counterexample: with a NotFound lister answer for key `"cls"`,
`syncCluster` logs "cluster has been deleted" but does NOT return nil —
it returns the NotFound error, so `processNextWorkItem` rate-limit
requeues the key instead of forgetting it. -/
theorem syncCluster_notFound_not_nil :
    (syncCluster syncEnvNotFound "cls").2 = [LogEvent.clusterDeleted] ∧
    ¬ ((syncCluster syncEnvNotFound "cls").1 = Except.ok () ∧
       processNextWorkItem (syncCluster syncEnvNotFound "cls").1 =
         QueueAction.forget) := by
  refine ⟨by decide, ?_⟩
  intro h
  exact absurd h.1 (by decide)

/-- C1 (amended): for every key whose lister lookup in `syncCluster`
returns a NotFound error, `syncCluster` logs that the cluster has been
deleted but returns the error, so the key is rate-limit requeued by
`processNextWorkItem` rather than Forgotten. -/
theorem syncCluster_notFound_requeues (env : SyncEnv) (key ns n : String)
    (e : Error) (hkey : splitMetaNamespaceKey key = .ok (ns, n))
    (hl : env.listerResult = .error e) (hnf : isNotFound e = true) :
    syncCluster env key = (.error e, [.clusterDeleted]) ∧
    processNextWorkItem (syncCluster env key).1 = .addRateLimited := by
  have h₁ : syncCluster env key = (.error e, [.clusterDeleted]) := by
    simp [syncCluster, hkey, hl, hnf]
  exact ⟨h₁, by rw [h₁]; rfl⟩

/-- Witness for `syncCluster_notFound_requeues` at a concrete key and
environment. -/
theorem syncCluster_notFound_requeues_witness :
    syncCluster syncEnvNotFound "wcls" = (.error .notFound, [.clusterDeleted]) ∧
    processNextWorkItem (syncCluster syncEnvNotFound "wcls").1 = .addRateLimited :=
  syncCluster_notFound_requeues syncEnvNotFound "wcls" "" "wcls" .notFound
    (by decide) rfl rfl

/-- C4: `ensureSyncOldClusterCredential` (i) returns nil immediately
with no API calls when the ref is already set; (ii) lists credentials
by field selector `clusterName=<name>` and, when the list is empty and
the type is `"Imported"`, returns the error "waiting create
ClusterCredential"; (iii) when the list is non-empty, sets the ref to
the first match's name and persists the cluster via `Update`. -/
theorem ensureSyncOldClusterCredential_spec (env : SyncOldEnv) (cluster : Cluster) :
    (∀ r, cluster.spec.clusterCredentialRef = some r →
      ensureSyncOldClusterCredential env cluster = (.ok (), cluster, [])) ∧
    (cluster.spec.clusterCredentialRef = none →
      env.listResult = .ok [] →
      cluster.spec.type = "Imported" →
      ensureSyncOldClusterCredential env cluster =
        (.error (.msg "waiting create ClusterCredential"), cluster,
          [.listCredentials ("clusterName=" ++ cluster.name)])) ∧
    (∀ credential rest, cluster.spec.clusterCredentialRef = none →
      env.listResult = .ok (credential :: rest) →
      (ensureSyncOldClusterCredential env cluster).2.1 =
        { cluster with spec := { cluster.spec with
            clusterCredentialRef := some ⟨credential.name⟩ } } ∧
      (ensureSyncOldClusterCredential env cluster).2.2 =
        [.listCredentials ("clusterName=" ++ cluster.name),
         .updateCluster (ensureSyncOldClusterCredential env cluster).2.1] ∧
      (env.updateClusterErr = none →
        (ensureSyncOldClusterCredential env cluster).1 = .ok ())) := by
  refine ⟨?_, ?_, ?_⟩
  · intro r hr
    simp [ensureSyncOldClusterCredential, hr]
  · intro h₀ hl ht
    simp [ensureSyncOldClusterCredential, h₀, hl, ht]
  · intro credential rest h₀ hl
    cases hu : env.updateClusterErr <;>
      simp [ensureSyncOldClusterCredential, h₀, hl, hu]

/-- Concrete inputs for the C4 witness: a cluster whose credential ref
is already set. -/
def clusterRefSet : Cluster :=
  { name := "c4"
    spec := { type := "Baremetal", tenantID := "t1",
              clusterCredentialRef := some ⟨"cc-c4"⟩ }
    status := { phase := .Running } }

/-- A `SyncOldEnv` that is never consulted on the ref-set branch. -/
def syncOldEnvIdle : SyncOldEnv :=
  { listResult := .ok [], updateClusterErr := none }

/-- Witness for `ensureSyncOldClusterCredential_spec`: on a cluster with
the ref already set, the call is a no-op returning nil. -/
theorem ensureSyncOldClusterCredential_spec_witness :
    ensureSyncOldClusterCredential syncOldEnvIdle clusterRefSet =
      (.ok (), clusterRefSet, []) :=
  (ensureSyncOldClusterCredential_spec syncOldEnvIdle clusterRefSet).1 ⟨"cc-c4"⟩ rfl

/-- C10: for a cluster with a nil credential ref whose type is not
`"Imported"`, when the credential list by field selector comes back
empty, `ensureSyncOldClusterCredential` returns nil having issued only
the `List` call: the ref stays unset, no `Update` is issued, and the
in-memory cluster is unchanged. -/
theorem ensureSyncOldClusterCredential_empty_noop (env : SyncOldEnv)
    (cluster : Cluster)
    (h₀ : cluster.spec.clusterCredentialRef = none)
    (ht : cluster.spec.type ≠ "Imported")
    (hl : env.listResult = .ok []) :
    ensureSyncOldClusterCredential env cluster =
      (.ok (), cluster, [.listCredentials ("clusterName=" ++ cluster.name)]) := by
  simp [ensureSyncOldClusterCredential, h₀, ht, hl]

/-- Concrete input for the C10 witness: a non-Imported cluster without
a credential ref. -/
def clusterNoRef : Cluster :=
  { name := "c10"
    spec := { type := "Baremetal", tenantID := "t1", clusterCredentialRef := none }
    status := { phase := .Initializing } }

/-- Witness for `ensureSyncOldClusterCredential_empty_noop` at a
concrete cluster and environment. -/
theorem ensureSyncOldClusterCredential_empty_noop_witness :
    ensureSyncOldClusterCredential syncOldEnvIdle clusterNoRef =
      (.ok (), clusterNoRef, [.listCredentials "clusterName=c10"]) :=
  ensureSyncOldClusterCredential_empty_noop syncOldEnvIdle clusterNoRef rfl
    (by decide) rfl

/-- C5: `ensureClusterCredential` is idempotent against
`AlreadyExists`.  (i) With a nil ref and a non-`"Imported"` type it
issues a `Create` carrying the cluster's `TenantID` and `ClusterName`;
an `AlreadyExists` answer is not a failure: in both the success and the
`AlreadyExists` case it sets the ref to the returned credential's name
and persists the cluster via `Update`, returning nil when that `Update`
succeeds.  (ii) With the ref set it `Get`s the credential and issues an
`Update` of the credential exactly when its `ClusterName` differs from
the cluster's name. -/
theorem ensureClusterCredential_spec (env : EnsureCredEnv) (cluster : Cluster) :
    (cluster.spec.clusterCredentialRef = none →
      cluster.spec.type ≠ "Imported" →
      (env.createResult.2 = none ∨ env.createResult.2 = some .alreadyExists) →
      (ensureClusterCredential env cluster).2.1 =
        { cluster with spec := { cluster.spec with
            clusterCredentialRef := some ⟨env.createResult.1.name⟩ } } ∧
      (ensureClusterCredential env cluster).2.2 =
        [.createCredential
          { name := "", tenantID := cluster.spec.tenantID,
            clusterName := cluster.name },
         .updateCluster (ensureClusterCredential env cluster).2.1] ∧
      (env.updateClusterErr = none →
        (ensureClusterCredential env cluster).1 = .ok ())) ∧
    (∀ ref credential, cluster.spec.clusterCredentialRef = some ref →
      env.getResult = .ok credential →
      (credential.clusterName = cluster.name →
        ensureClusterCredential env cluster =
          (.ok (), cluster, [.getCredential ref.name])) ∧
      (credential.clusterName ≠ cluster.name →
        (ensureClusterCredential env cluster).2.2 =
          [.getCredential ref.name,
           .updateCredential { credential with clusterName := cluster.name }] ∧
        (env.updateCredentialErr = none →
          ensureClusterCredential env cluster =
            (.ok (), cluster,
              [.getCredential ref.name,
               .updateCredential { credential with clusterName := cluster.name }])))) := by
  constructor
  · intro h₀ ht hc
    rcases hcr : env.createResult with ⟨cred, cerr⟩
    have hcerr : cerr = none ∨ cerr = some Error.alreadyExists := by
      rcases hc with hc | hc <;> rw [hcr] at hc <;> simp at hc <;> simp [hc]
    have hrun : ensureClusterCredential env cluster =
        ensureCredSetRef env cluster cred
          [APIOp.createCredential
            { name := "", tenantID := cluster.spec.tenantID,
              clusterName := cluster.name }] := by
      rcases hcerr with h | h <;>
        simp [ensureClusterCredential, h₀, ht, hcr, h, isAlreadyExists]
    cases hu : env.updateClusterErr <;>
      simp [hrun, ensureCredSetRef, hu]
  · intro ref credential h₀ hg
    constructor
    · intro hsame
      simp [ensureClusterCredential, h₀, hg, hsame]
    · intro hdiff
      cases hu : env.updateCredentialErr <;>
        simp [ensureClusterCredential, h₀, hg, hdiff, hu]

/-- Concrete environment for the C5 witness: `Create` answers
`AlreadyExists` alongside the existing credential, and the cluster
`Update` succeeds. -/
def ensureCredEnvW : EnsureCredEnv :=
  { createResult :=
      ({ name := "cc-w", tenantID := "t1", clusterName := "c10" },
       some .alreadyExists)
    updateClusterErr := none
    getResult := .error .notFound
    updateCredentialErr := none }

/-- Witness for `ensureClusterCredential_spec`: an `AlreadyExists`
answer from `Create` still ends with nil and the ref set. -/
theorem ensureClusterCredential_spec_witness :
    (ensureClusterCredential ensureCredEnvW clusterNoRef).1 = .ok () ∧
    (ensureClusterCredential ensureCredEnvW clusterNoRef).2.1.spec.clusterCredentialRef =
      some ⟨"cc-w"⟩ := by
  have h := (ensureClusterCredential_spec ensureCredEnvW clusterNoRef).1 rfl
    (by decide) (Or.inr rfl)
  exact ⟨h.2.2 rfl, by rw [h.1]; rfl⟩

/-- C7: one tick of the `watchHealth` poll function (i) on NotFound
removes the key from `healthCache` and returns done so polling stops;
(ii) when the phase is neither Running nor Failed returns not-done
without running `checkHealth`; (iii) otherwise runs `checkHealth` and
keeps polling. -/
theorem watchHealthTick_spec (env : WatchHealthEnv) (key : String)
    (cache : List String) :
    (∀ e, env.listerResult = .error e → isNotFound e = true →
      watchHealthTick env key cache =
        { done := true, err := none,
          healthCache := cache.filter (fun k => k ≠ key),
          ranCheckHealth := false, logs := [.stopHealthCheckDeleted] }) ∧
    (∀ cluster, env.listerResult = .ok cluster →
      cluster.status.phase ≠ .Running → cluster.status.phase ≠ .Failed →
      watchHealthTick env key cache =
        { done := false, err := none, healthCache := cache,
          ranCheckHealth := false, logs := [] }) ∧
    (∀ cluster, env.listerResult = .ok cluster →
      (cluster.status.phase = .Running ∨ cluster.status.phase = .Failed) →
      (watchHealthTick env key cache).ranCheckHealth = true ∧
      (watchHealthTick env key cache).done = false) := by
  refine ⟨?_, ?_, ?_⟩
  · intro e hl hnf
    simp [watchHealthTick, hl, hnf]
  · intro cluster hl hr hf
    simp [watchHealthTick, hl, hr, hf]
  · intro cluster hl hp
    cases hc : env.checkHealthErr <;>
      simp [watchHealthTick, hl, hp, hc]

/-- Environment for the C7 witness: the lister answers NotFound. -/
def watchEnvNotFound : WatchHealthEnv :=
  { listerResult := .error .notFound, checkHealthErr := none }

/-- Witness for `watchHealthTick_spec`: on NotFound the key is removed
from the cache and the loop is told to stop. -/
theorem watchHealthTick_spec_witness :
    watchHealthTick watchEnvNotFound "k1" ["k0", "k1"] =
      { done := true, err := none, healthCache := ["k0"],
        ranCheckHealth := false, logs := [.stopHealthCheckDeleted] } := by
  have h := (watchHealthTick_spec watchEnvNotFound "k1" ["k0", "k1"]).1
    Error.notFound rfl rfl
  rw [h]
  decide

/-- C9: ticks that hit an error other than NotFound from the lister,
and ticks in which `checkHealth` returns a non-nil error, return
`(done := false, err := nil)`: the poll loop continues, the
`checkHealth` error is only logged, and the key stays in
`healthCache`. -/
theorem watchHealthTick_errors_continue (env : WatchHealthEnv) (key : String)
    (cache : List String) :
    (∀ e, env.listerResult = .error e → isNotFound e = false →
      watchHealthTick env key cache =
        { done := false, err := none, healthCache := cache,
          ranCheckHealth := false, logs := [] }) ∧
    (∀ cluster e, env.listerResult = .ok cluster →
      (cluster.status.phase = .Running ∨ cluster.status.phase = .Failed) →
      env.checkHealthErr = some e →
      watchHealthTick env key cache =
        { done := false, err := none, healthCache := cache,
          ranCheckHealth := true, logs := [.checkHealthError e] }) := by
  constructor
  · intro e hl hnf
    simp [watchHealthTick, hl, hnf]
  · intro cluster e hl hp hc
    simp [watchHealthTick, hl, hp, hc]

/-- Environment for the C9 witness: the cluster is Running and
`checkHealth` fails. -/
def watchEnvCheckFails : WatchHealthEnv :=
  { listerResult := .ok clusterRefSet,
    checkHealthErr := some (.msg "probe failed") }

/-- Witness for `watchHealthTick_errors_continue`: a failing
`checkHealth` only logs; the loop continues and the cache is kept. -/
theorem watchHealthTick_errors_continue_witness :
    watchHealthTick watchEnvCheckFails "k1" ["k1"] =
      { done := false, err := none, healthCache := ["k1"],
        ranCheckHealth := true, logs := [.checkHealthError (.msg "probe failed")] } :=
  (watchHealthTick_errors_continue watchEnvCheckFails "k1" ["k1"]).2
    clusterRefSet (.msg "probe failed") rfl (Or.inl rfl) rfl

/-- After `setCondition conditions c`, some stored condition has
`c`'s type, status, reason and message. -/
theorem mem_setCondition (conditions : List ClusterCondition)
    (c : ClusterCondition) :
    ∃ x ∈ setCondition conditions c,
      x.type = c.type ∧ x.status = c.status ∧
      x.reason = c.reason ∧ x.message = c.message := by
  unfold setCondition
  by_cases h : conditions.any (fun x => x.type == c.type) = true
  · simp only [h, if_true]
    obtain ⟨y, hy, hyt⟩ := List.any_eq_true.mp h
    have hyt' : (y.type == c.type) = true := hyt
    refine ⟨{ y with status := c.status, reason := c.reason, message := c.message }, ?_, ?_, rfl, rfl, rfl⟩
    · exact List.mem_map.mpr ⟨y, hy, by simp [hyt']⟩
    · simpa using beq_iff_eq.mp hyt'
  · simp only [h, if_false]
    exact ⟨c, by simp, rfl, rfl, rfl, rfl⟩

/-- C6: `checkHealth` snapshots the cluster; on a client-build failure
or a `ServerVersion` failure it marks the phase Failed and upserts a
`HealthCheck` condition that is False with reason `FailedHealthCheck`
and the error text as message; on success it marks the phase Running,
records the version, and upserts a True `HealthCheck` condition; and
(when patch computation succeeds) it persists the difference between
the snapshot and the mutated cluster with a single strategic-merge
`Patch` — no full `Update` is issued. -/
theorem checkHealth_spec (env : CheckHealthEnv) (cluster : Cluster) :
    (∀ e, env.buildClientErr = some e →
      (checkHealth env cluster).2.1.status.phase = .Failed ∧
      ∃ x ∈ (checkHealth env cluster).2.1.status.conditions,
        x.type = conditionTypeHealthCheck ∧ x.status = .False ∧
        x.reason = failedHealthCheckReason ∧ x.message = e) ∧
    (∀ e, env.buildClientErr = none → env.serverVersion = .error e →
      (checkHealth env cluster).2.1.status.phase = .Failed ∧
      ∃ x ∈ (checkHealth env cluster).2.1.status.conditions,
        x.type = conditionTypeHealthCheck ∧ x.status = .False ∧
        x.reason = failedHealthCheckReason ∧ x.message = e) ∧
    (∀ v, env.buildClientErr = none → env.serverVersion = .ok v →
      (checkHealth env cluster).2.1.status.phase = .Running ∧
      (checkHealth env cluster).2.1.status.version = v ∧
      ∃ x ∈ (checkHealth env cluster).2.1.status.conditions,
        x.type = conditionTypeHealthCheck ∧ x.status = .True) ∧
    (env.getPatchBytesErr = none →
      (checkHealth env cluster).2.2 =
        [.patchCluster cluster.name .strategicMerge cluster
          (checkHealth env cluster).2.1] ∧
      ∀ cl, APIOp.updateCluster cl ∉ (checkHealth env cluster).2.2) := by
  refine ⟨?_, ?_, ?_, ?_⟩
  · intro e hb
    have hres : (checkHealth env cluster).2.1 =
        { cluster with status := { cluster.status with
            phase := .Failed,
            conditions := setCondition cluster.status.conditions
              { type := conditionTypeHealthCheck, status := .False,
                reason := failedHealthCheckReason, message := e } } } := by
      cases hg : env.getPatchBytesErr <;> cases hp : env.patchErr <;>
        simp [checkHealth, hb, hg, hp]
    refine ⟨by rw [hres], ?_⟩
    rw [hres]
    simpa using mem_setCondition cluster.status.conditions
      { type := conditionTypeHealthCheck, status := .False,
        reason := failedHealthCheckReason, message := e }
  · intro e hb hv
    have hres : (checkHealth env cluster).2.1 =
        { cluster with status := { cluster.status with
            phase := .Failed,
            conditions := setCondition cluster.status.conditions
              { type := conditionTypeHealthCheck, status := .False,
                reason := failedHealthCheckReason, message := e } } } := by
      cases hg : env.getPatchBytesErr <;> cases hp : env.patchErr <;>
        simp [checkHealth, hb, hv, hg, hp]
    refine ⟨by rw [hres], ?_⟩
    rw [hres]
    simpa using mem_setCondition cluster.status.conditions
      { type := conditionTypeHealthCheck, status := .False,
        reason := failedHealthCheckReason, message := e }
  · intro v hb hv
    have hres : (checkHealth env cluster).2.1 =
        { cluster with status := { cluster.status with
            phase := .Running, version := v,
            conditions := setCondition cluster.status.conditions
              { type := conditionTypeHealthCheck, status := .True,
                reason := "", message := "" } } } := by
      cases hg : env.getPatchBytesErr <;> cases hp : env.patchErr <;>
        simp [checkHealth, hb, hv, hg, hp]
    refine ⟨by rw [hres], by rw [hres], ?_⟩
    rw [hres]
    obtain ⟨x, hx, h₁, h₂, _, _⟩ := mem_setCondition cluster.status.conditions
      { type := conditionTypeHealthCheck, status := .True,
        reason := "", message := "" }
    exact ⟨x, hx, h₁, h₂⟩
  · intro hg
    cases hb : env.buildClientErr <;> cases hp : env.patchErr <;>
      simp [checkHealth, hb, hg, hp]

/-- Environment for the C6 witness: building the external client fails
with "conn refused"; patch computation and the patch call succeed. -/
def checkEnvBuildFail : CheckHealthEnv :=
  { buildClientErr := some "conn refused"
    serverVersion := .error "unused"
    getPatchBytesErr := none
    patchErr := none }

/-- Witness for `checkHealth_spec`: a failed client build marks the
cluster Failed and persists it through a strategic-merge patch. -/
theorem checkHealth_spec_witness :
    (checkHealth checkEnvBuildFail clusterRefSet).2.1.status.phase = .Failed ∧
    (checkHealth checkEnvBuildFail clusterRefSet).2.2 =
      [.patchCluster clusterRefSet.name .strategicMerge clusterRefSet
        (checkHealth checkEnvBuildFail clusterRefSet).2.1] := by
  have h := checkHealth_spec checkEnvBuildFail clusterRefSet
  exact ⟨(h.1 "conn refused" rfl).1, (h.2.2.2 rfl).1⟩

/-- Cluster, credential and wrapper for the `onCreate` scenarios: the
cluster is Initializing with its credential ref already set, so
`ensureClusterCredential` succeeds without issuing writes. -/
def clusterInitRefSet : Cluster :=
  { name := "c2"
    spec := { type := "Baremetal", tenantID := "t1",
              clusterCredentialRef := some ⟨"cc-c2"⟩ }
    status := { phase := .Initializing } }

/-- The credential matching `clusterInitRefSet`. -/
def credInit : ClusterCredential :=
  { name := "cc-c2", tenantID := "t1", clusterName := "c2" }

/-- The wrapper `typesv1.GetCluster` builds for `clusterInitRefSet`. -/
def wrapperInit : ClusterWrapper :=
  { cluster := clusterInitRefSet, clusterCredential := credInit }

/-- `EnsureCredEnv` in which the ref-set branch finds a credential that
already carries the right `ClusterName`. -/
def ensureCredEnvRefOk : EnsureCredEnv :=
  { createResult := ({ name := "" }, none)
    updateClusterErr := none
    getResult := .ok credInit
    updateCredentialErr := none }

/-- `onCreate` environment in which the provider advances the phase to
Failed but returns an error, while both Updates succeed. -/
def onCreateEnvSwallow : OnCreateEnv :=
  { getProviderErr := none
    ensureEnv := ensureCredEnvRefOk
    getClusterResult := .ok wrapperInit
    providerOnCreate := fun w =>
      ({ w with cluster := { w.cluster with
          status := { w.cluster.status with phase := .Failed } } },
       some (.msg "provider boom"))
    updateCredentialErr := fun _ => none
    updateClusterErr := fun _ => none }

/-- C2 (code bug): with a provider whose `OnCreate` returns a non-nil
error but advances the phase out of Initializing, and with both
persistence Updates succeeding, `onCreate` returns nil: the provider's
error is overwritten by the Update results instead of being surfaced,
contradicting the adjacent comment "If any error happens, return error
for retry". -/
theorem onCreate_swallows_provider_error :
    (onCreateEnvSwallow.providerOnCreate wrapperInit).2 =
      some (.msg "provider boom") ∧
    onCreate onCreateEnvSwallow 2 clusterInitRefSet = some (.ok ()) :=
  ⟨rfl, rfl⟩

/-- `onCreate` environment in which the provider leaves the phase at
Initializing and returns an error, while both Updates succeed. -/
def onCreateEnvStuck : OnCreateEnv :=
  { getProviderErr := none
    ensureEnv := ensureCredEnvRefOk
    getClusterResult := .ok wrapperInit
    providerOnCreate := fun w => (w, some (.msg "provider error"))
    updateCredentialErr := fun _ => none
    updateClusterErr := fun _ => none }

/-- C3 (code bug): a provider whose `OnCreate` keeps the phase at
Initializing and returns a non-nil error while both persistence
Updates succeed does NOT break the loop: the error is overwritten by
the successful Updates before the error check, so `onCreate` never
returns under any fuel bound — the loop is a busy loop on this
provider, and it does satisfy the claim's hypothesis (advance the phase
or return an error). -/
theorem onCreate_busy_loop_on_provider_error (fuel : Nat) :
    (onCreateEnvStuck.providerOnCreate wrapperInit).2 =
      some (.msg "provider error") ∧
    onCreate onCreateEnvStuck fuel clusterInitRefSet = none := by
  refine ⟨rfl, ?_⟩
  have hloop : ∀ f i,
      onCreateLoop onCreateEnvStuck f i wrapperInit = .fuelOut wrapperInit := by
    intro f
    induction f with
    | zero => intro i; rfl
    | succ n ih =>
      intro i
      have hstep : onCreateLoop onCreateEnvStuck (n + 1) i wrapperInit =
          onCreateLoop onCreateEnvStuck n (i + 1) wrapperInit := rfl
      rw [hstep, ih (i + 1)]
  have hrun : ∀ f, onCreate onCreateEnvStuck f clusterInitRefSet =
      (match onCreateLoop onCreateEnvStuck f 0 wrapperInit with
        | .returned r _ => some r
        | .fuelOut _ => none) := fun _ => rfl
  rw [hrun fuel, hloop fuel 0]

end TKE
